import Mathlib

/-!
Verification development for the CampusHub task-marketplace backend.

The definitions below are a shallow embedding of the server code:

* `src/server/utils/mpesaAuth.js` — phone-number normalization/validation
  (`formatPhoneNumber`, `validatePhoneNumber`);
* the Task / Transaction / Notification Mongoose schemas (including the
  Transaction `pre('save')` commission hook);
* the task-lifecycle routes (`POST /`, `POST /:id/apply`, `POST /:id/assign`,
  `PATCH /:id/complete`, `PATCH /:id/pay`);
* the M-Pesa routes (`POST /simulate-c2b`, `POST /confirmation`,
  `POST /validation`, `POST /b2c-payment`, `POST /b2c-result`,
  `POST /b2c-timeout`).

Conventions of the embedding:

* Document-store state is a `State` record: a task list, a transaction ledger,
  a notification store, and a log of outbound gateway calls.  Mongo object ids
  are modelled as `Nat` counters (`nextTaskId`, `nextTxId`), which gives the
  uniqueness that Mongo `_id`s have.
* Monetary values are exact rationals (the JS numbers in the source are used
  on integer and one-decimal values only; the claims are about the exact
  arithmetic in the source expressions).
* Each route handler becomes a pure function from its request data and the
  current state to the new state plus its HTTP outcome.  The asynchronous
  gateway response is an explicit `Option GwData` argument: `none` models a
  failed network call / thrown axios error (handled by the route's `catch`).
* Route handlers that perform two consecutive `save()` calls with no
  observable step in between are collapsed to one write of the final document;
  the write that precedes the gateway call is kept observable through the
  gateway-failure branch, which persists the pending record.
* Text interpolated into notification messages (user names, amounts) is not
  modelled; notification records carry a fixed message per creation site.
* `createNotification` failures that the source catches and ignores
  (notifying a `null` user, or the `'error'` notification type that the
  Notification schema enum rejects) are modelled as creating no record.
-/

namespace CampusHub

abbrev Id := Nat
abbrev Time := Nat

/-! ## Phone-number normalization (`src/server/utils/mpesaAuth.js`) -/

/-- `phone.replace(/[\s\-\+]/g, '')`: drop whitespace, hyphens and plus signs. -/
def stripPhone (l : List Char) : List Char :=
  l.filter fun c => !(c.isWhitespace || c == '-' || c == '+')

/-- The branch cascade of `formatPhoneNumber` applied to the stripped digits:
`startsWith('0')`, then `startsWith('254')`, then `startsWith('7')` or
`startsWith('1')`, in source order. -/
def formatStripped : List Char → Option (List Char)
  | '0' :: rest => some ('2' :: '5' :: '4' :: rest)
  | '2' :: '5' :: '4' :: rest => some ('2' :: '5' :: '4' :: rest)
  | '7' :: rest => some ('2' :: '5' :: '4' :: '7' :: rest)
  | '1' :: rest => some ('2' :: '5' :: '4' :: '1' :: rest)
  | _ => none

/-- `formatPhoneNumber`: strip separators, then: leading `0` becomes `254`, a
leading `254` is kept, a bare subscriber number starting with `7` or `1` gets
`254` prefixed; anything else throws (`none`). -/
def formatPhoneNumber (l : List Char) : Option (List Char) :=
  formatStripped (stripPhone l)

/-- The regex `^254[71]\d{8}$` used by `validatePhoneNumber`. -/
def kenyanPhoneRegex (l : List Char) : Bool :=
  match l with
  | '2' :: '5' :: '4' :: c :: rest =>
      (c == '7' || c == '1') && rest.length == 8 && rest.all (·.isDigit)
  | _ => false

/-- `validatePhoneNumber`: format, then test the regex; a failure of either
step throws (`none`). -/
def validatePhoneNumber (l : List Char) : Option (List Char) :=
  match formatPhoneNumber l with
  | none => none
  | some f => if kenyanPhoneRegex f then some f else none

/-- `Math.round` on a nonnegative JS number: round half up. -/
def mathRound (q : ℚ) : ℤ := ⌊q + 1 / 2⌋

/-! ## Data model (Mongoose schemas) -/

/-- `Task.status` enum (`open` is a Lean keyword, hence `open_`). -/
inductive TaskStatus
  | open_
  | inProgress
  | completed
  | paid
  | cancelled
deriving DecidableEq

/-- `Task.paymentStatus` enum. -/
inductive PaymentStatus
  | unpaid
  | paid
deriving DecidableEq

/-- One entry of `Task.applicants`. -/
structure Applicant where
  user : Id
  appliedAt : Time
deriving DecidableEq

/-- The Task schema. -/
structure Task where
  id : Id
  title : String
  description : String
  budget : ℚ
  status : TaskStatus := .open_
  paymentStatus : PaymentStatus := .unpaid
  deadline : Option Time := none
  postedBy : Id
  assignedTo : Option Id := none
  applicants : List Applicant := []
  completedAt : Option Time := none
  paidAt : Option Time := none
  createdAt : Time
  updatedAt : Time
deriving DecidableEq

/-- `Transaction.transactionType` enum. -/
inductive TxType
  | C2B
  | B2C
  | REVERSAL
deriving DecidableEq

/-- `Transaction.status` enum. -/
inductive TxStatus
  | PENDING
  | COMPLETED
  | FAILED
  | CANCELLED
  | TIMEOUT
deriving DecidableEq

/-- The Transaction schema.  `callbackData` (a Mixed blob in the schema) is
modelled as a flag recording that a callback payload was stored. -/
structure Transaction where
  id : Id
  transactionType : TxType
  mpesaTransactionId : Option String := none
  mpesaReceiptNumber : Option String := none
  conversationId : Option String := none
  originatorConversationId : Option String := none
  amount : ℚ
  commission : ℚ := 0
  netAmount : Option ℚ := none
  phoneNumber : String
  fromUser : Option Id := none
  toUser : Option Id := none
  task : Option Id := none
  status : TxStatus := .PENDING
  responseCode : Option String := none
  responseDescription : Option String := none
  errorMessage : Option String := none
  callbackReceived : Bool := false
  callbackData : Bool := false
  initiatedAt : Time
  completedAt : Option Time := none
  createdAt : Time
  updatedAt : Time
deriving DecidableEq

/-- The `transactionSchema.pre('save')` middleware pair: bump `updatedAt`, and
for a B2C transaction with a truthy `amount` and a falsy `netAmount` compute
the 10% commission and the net amount (JS falsiness of a number: `undefined`
or `0`). -/
def Transaction.preSave (now : Time) (t : Transaction) : Transaction :=
  let t := { t with updatedAt := now }
  if t.transactionType = .B2C ∧ t.amount ≠ 0 ∧
      (t.netAmount = none ∨ t.netAmount = some 0) then
    { t with commission := t.amount * (0.10 : ℚ),
             netAmount := some (t.amount - t.amount * (0.10 : ℚ)) }
  else t

/-- `true` exactly when the `pre('save')` commission hook would recompute the
commission/net fields of `t`. -/
def Transaction.hookFires (t : Transaction) : Prop :=
  t.transactionType = .B2C ∧ t.amount ≠ 0 ∧
    (t.netAmount = none ∨ t.netAmount = some 0)

instance (t : Transaction) : Decidable t.hookFires := by
  unfold Transaction.hookFires; infer_instance

/-- `Notification.type` enum.  The `'error'` type used by the B2C timeout
handler is *not* in this enum; the schema rejects it. -/
inductive NotifType
  | application
  | assignment
  | completion
  | payment
  | general
deriving DecidableEq

/-- The Notification schema. -/
structure Notification where
  user : Id
  message : String
  ntype : NotifType
  relatedTask : Option Id := none
  relatedUser : Option Id := none
  isRead : Bool := false
  createdAt : Time
deriving DecidableEq

/-- Data of a successful gateway (axios) response to an outbound request. -/
structure GwData where
  conversationId : String
  originatorConversationId : String
  responseCode : String
  responseDescription : String
deriving DecidableEq

/-- An outbound call to the M-Pesa gateway.  The B2C request carries the
integer `Math.round(payoutAmount)` actually submitted. -/
inductive GatewayCall
  | c2bSimulate (amount : ℚ) (msisdn : String) (billRef : String)
  | b2cRequest (amount : ℤ) (partyB : String)
deriving DecidableEq

/-- The document store plus the log of outbound gateway calls. -/
structure State where
  tasks : List Task := []
  transactions : List Transaction := []
  notifications : List Notification := []
  gatewayCalls : List GatewayCall := []
  nextTaskId : Id := 0
  nextTxId : Id := 0
deriving DecidableEq

def State.init : State := {}

/-- `Task.findById`. -/
def State.findTask (st : State) (tid : Id) : Option Task :=
  st.tasks.find? fun t => t.id == tid

/-- Write back one task document found by id (Mongo `_id`s are unique). -/
def State.updateTask (st : State) (tid : Id) (f : Task → Task) : State :=
  { st with tasks := st.tasks.map fun t => if t.id = tid then f t else t }

/-- Write back one transaction document found by id. -/
def State.updateTx (st : State) (i : Id) (f : Transaction → Transaction) :
    State :=
  { st with transactions :=
      st.transactions.map fun t => if t.id = i then f t else t }

/-- `createNotification` from `routes/notifications.js`: persist a record. -/
def State.addNotification (st : State) (user : Id) (message : String)
    (ntype : NotifType) (relatedTask relatedUser : Option Id) (now : Time) :
    State :=
  { st with notifications := st.notifications ++
      [{ user, message, ntype, relatedTask, relatedUser, createdAt := now }] }

/-- HTTP error outcomes used by the routes. -/
inductive ApiError
  | notFound (msg : String)
  | forbidden (msg : String)
  | badRequest (msg : String)
  | serverError (msg : String)
deriving DecidableEq

/-- 500-class outcome (a route's `catch` branch). -/
def ApiError.isServerError : ApiError → Bool
  | .serverError _ => true
  | _ => false

/-- The spec's "Conflict" taxonomy entry: the routes report guard violations
with HTTP 400. -/
def ApiError.isConflict : ApiError → Bool
  | .badRequest _ => true
  | _ => false

/-- `ResultCode` of an M-Pesa callback response: the numeric success code or a
string rejection code. -/
inductive MpesaCode
  | num (n : ℤ)
  | str (s : String)
deriving DecidableEq

/-- Body of a response to an inbound M-Pesa callback. -/
structure MpesaResp where
  resultCode : MpesaCode
  resultDesc : String
deriving DecidableEq

/-- The fixed success envelope `{ResultCode: 0, ResultDesc: 'Success'}`. -/
def mpesaSuccess : MpesaResp := ⟨.num 0, "Success"⟩

/-! ## Task-lifecycle routes (`routes/tasks.js`) -/

/-- `POST /` — create a task.  The JS falsiness check `!title || !description
|| !budget` rejects an empty string or a zero budget. -/
def createTask (title description : String) (budget : ℚ) (caller : Id)
    (now : Time) (st : State) : State × Except ApiError Unit :=
  if title = "" ∨ description = "" ∨ budget = 0 then
    (st, .error (.badRequest "All fields are required"))
  else
    let t : Task := { id := st.nextTaskId, title, description, budget,
                      postedBy := caller, createdAt := now, updatedAt := now }
    ({ st with tasks := st.tasks ++ [t], nextTaskId := st.nextTaskId + 1 },
     .ok ())

/-- `POST /:id/apply` — apply to a task. -/
def applyToTask (tid caller : Id) (now : Time) (st : State) :
    State × Except ApiError Unit :=
  match st.findTask tid with
  | none => (st, .error (.notFound "Task not found"))
  | some task =>
    if task.postedBy = caller then
      (st, .error (.badRequest "You cannot apply to your own task"))
    else if task.applicants.any (fun a => a.user == caller) then
      (st, .error (.badRequest "You already applied to this task"))
    else
      let st := st.updateTask tid fun t =>
        { t with applicants := t.applicants ++ [⟨caller, now⟩],
                 updatedAt := now }
      let st := st.addNotification task.postedBy
        "applied to your task" .application (some tid) (some caller) now
      (st, .ok ())

/-- `POST /:id/assign` — assign a task.  The route checks only that the caller
owns the task; `applicantId` is taken from the request body unvalidated. -/
def assignTask (tid applicantId caller : Id) (now : Time) (st : State) :
    State × Except ApiError Unit :=
  match st.findTask tid with
  | none => (st, .error (.notFound "Task not found"))
  | some task =>
    if task.postedBy ≠ caller then
      (st, .error (.forbidden "Not authorized"))
    else
      let st := st.updateTask tid fun t =>
        { t with assignedTo := some applicantId, status := .inProgress,
                 updatedAt := now }
      let st := st.addNotification applicantId
        "You have been assigned to the task" .assignment (some tid)
        (some caller) now
      (st, .ok ())

/-- `PATCH /:id/complete` — mark a task completed.  The guard is only
`task.assignedTo.toString() !== req.userId`; with a null `assignedTo` that
expression throws, which the route's `catch` turns into a 500. -/
def completeTask (tid caller : Id) (now : Time) (st : State) :
    State × Except ApiError Unit :=
  match st.findTask tid with
  | none => (st, .error (.notFound "Task not found"))
  | some task =>
    match task.assignedTo with
    | none => (st, .error (.serverError "Server error completing task"))
    | some assignee =>
      if assignee ≠ caller then
        (st, .error (.forbidden "Only the assigned user can complete this task"))
      else
        let st := st.updateTask tid fun t =>
          { t with status := .completed, completedAt := some now,
                   updatedAt := now }
        let st := st.addNotification task.postedBy
          "completed your task" .completion (some tid) (some caller) now
        (st, .ok ())

/-- `PATCH /:id/pay` — process payment.  Sets `paymentStatus` and `paidAt`
only; `status` stays `completed`.  Notifying a null `assignedTo` throws inside
the route's inner try/catch and is swallowed. -/
def payTask (tid caller : Id) (now : Time) (st : State) :
    State × Except ApiError Unit :=
  match st.findTask tid with
  | none => (st, .error (.notFound "Task not found"))
  | some task =>
    if task.postedBy ≠ caller then
      (st, .error (.forbidden "Only the task owner can process payment"))
    else if task.status ≠ .completed then
      (st, .error (.badRequest "Task must be completed before payment"))
    else if task.paymentStatus = .paid then
      (st, .error (.badRequest "Task already paid"))
    else
      let st := st.updateTask tid fun t =>
        { t with paymentStatus := .paid, paidAt := some now,
                 updatedAt := now }
      let st := match task.assignedTo with
        | some a => st.addNotification a
            "Payment has been processed for your task" .payment (some tid)
            (some caller) now
        | none => st
      (st, .ok ())

/-! ## M-Pesa routes (`routes/mpesa.js`) -/

/-- `POST /simulate-c2b` — simulate the collection payment.  No task-status
guard: only existence and ownership are checked.  A phone-validation throw is
caught by the route's `catch` (500).  The pending transaction is written
before the gateway call, so a failed call (`gw = none`) still persists it. -/
def simulateC2B (tid : Id) (phoneNumber : String) (amount : ℚ) (caller : Id)
    (gw : Option GwData) (now : Time) (st : State) :
    State × Except ApiError Unit :=
  if amount = 0 then
    (st, .error (.badRequest "Task ID, phone number, and amount are required"))
  else
    match st.findTask tid with
    | none => (st, .error (.notFound "Task not found"))
    | some task =>
      if task.postedBy ≠ caller then
        (st, .error (.forbidden "Only task owner can initiate payment"))
      else
        match validatePhoneNumber phoneNumber.data with
        | none => (st, .error (.serverError "Failed to simulate C2B payment"))
        | some fphone =>
          let base : Transaction :=
            { id := st.nextTxId, transactionType := .C2B, amount,
              phoneNumber := ⟨fphone⟩, fromUser := some caller,
              task := some tid, status := .PENDING, initiatedAt := now,
              createdAt := now, updatedAt := now }
          let call := GatewayCall.c2bSimulate amount ⟨fphone⟩
            ("TASK_" ++ toString tid)
          match gw with
          | none =>
            ({ st with transactions := st.transactions ++ [base.preSave now],
                       gatewayCalls := st.gatewayCalls ++ [call],
                       nextTxId := st.nextTxId + 1 },
             .error (.serverError "Failed to simulate C2B payment"))
          | some g =>
            let tx := Transaction.preSave now
              { base with responseCode := some g.responseCode,
                          responseDescription := some g.responseDescription,
                          conversationId := some g.conversationId,
                          originatorConversationId :=
                            some g.originatorConversationId }
            ({ st with transactions := st.transactions ++ [tx],
                       gatewayCalls := st.gatewayCalls ++ [call],
                       nextTxId := st.nextTxId + 1 },
             .ok ())

/-- `POST /confirmation` — C2B confirmation callback.  `billRefTask` is the
task id extracted from `BillRefNumber` (`none` models a missing/empty
reference).  Always answers with the success envelope. -/
def c2bConfirmation (billRefTask : Option Id) (transID : String)
    (now : Time) (st : State) : State × MpesaResp :=
  match billRefTask with
  | none => (st, mpesaSuccess)
  | some tid =>
    match st.transactions.find? (fun t =>
        t.task == some tid && t.transactionType == TxType.C2B &&
        t.status == TxStatus.PENDING) with
    | none => (st, mpesaSuccess)
    | some tx =>
      let st1 := st.updateTx tx.id fun t =>
        Transaction.preSave now
          { t with status := .COMPLETED, mpesaTransactionId := some transID,
                   mpesaReceiptNumber := some transID,
                   completedAt := some now, callbackReceived := true,
                   callbackData := true }
      match st1.findTask tid with
      | none => (st1, mpesaSuccess)
      | some _ =>
        let st2 := st1.updateTask tid fun t =>
          { t with paymentStatus := .paid, paidAt := some now,
                   updatedAt := now }
        let st3 := match tx.fromUser with
          | some u => st2.addNotification u "Payment confirmed for task"
              .payment (some tid) none now
          | none => st2
        (st3, mpesaSuccess)

/-- `POST /validation` — C2B validation callback.  Unlike the other callback
endpoints this one answers with `C2B000xx` rejection codes. -/
def c2bValidation (billRefTask : Option Id) (transAmount : ℚ) (st : State) :
    MpesaResp :=
  match billRefTask with
  | none => ⟨.str "C2B00011", "Invalid Bill Reference"⟩
  | some tid =>
    match st.findTask tid with
    | none => ⟨.str "C2B00012", "Task not found"⟩
    | some task =>
      if transAmount ≠ task.budget then
        ⟨.str "C2B00013", "Amount does not match task budget"⟩
      else mpesaSuccess

/-- `POST /b2c-payment` — initiate the payout.  All eligibility checks run
before the transaction record is written and before the gateway call; the
pending record persists when the gateway call fails (`gw = none`). -/
def b2cPayment (tid : Id) (phoneNumber : String) (caller : Id)
    (gw : Option GwData) (now : Time) (st : State) :
    State × Except ApiError Unit :=
  match st.findTask tid with
  | none => (st, .error (.notFound "Task not found"))
  | some task =>
    if task.postedBy ≠ caller then
      (st, .error (.forbidden "Only task owner can trigger payment"))
    else if task.status ≠ .completed then
      (st, .error (.badRequest "Task must be completed before payment"))
    else
      match task.assignedTo with
      | none => (st, .error (.badRequest "Task has no assigned user to pay"))
      | some worker =>
        match st.transactions.find? (fun t =>
            t.task == some tid && t.transactionType == TxType.C2B &&
            t.status == TxStatus.COMPLETED) with
        | none =>
          (st, .error (.badRequest "No confirmed payment found for this task"))
        | some c2b =>
          match st.transactions.find? (fun t =>
              t.task == some tid && t.transactionType == TxType.B2C &&
              (t.status == TxStatus.PENDING ||
               t.status == TxStatus.COMPLETED)) with
          | some _ =>
            (st, .error (.badRequest "Payment already processed for this task"))
          | none =>
            match validatePhoneNumber phoneNumber.data with
            | none =>
              (st, .error (.serverError "Failed to initiate B2C payment"))
            | some fphone =>
              let totalAmount := c2b.amount
              let commission := totalAmount * (0.10 : ℚ)
              let payoutAmount := totalAmount - commission
              let base : Transaction :=
                { id := st.nextTxId, transactionType := .B2C,
                  amount := totalAmount, commission,
                  netAmount := some payoutAmount, phoneNumber := ⟨fphone⟩,
                  fromUser := some caller, toUser := some worker,
                  task := some tid, status := .PENDING, initiatedAt := now,
                  createdAt := now, updatedAt := now }
              let call := GatewayCall.b2cRequest (mathRound payoutAmount)
                ⟨fphone⟩
              match gw with
              | none =>
                ({ st with
                     transactions := st.transactions ++ [base.preSave now],
                     gatewayCalls := st.gatewayCalls ++ [call],
                     nextTxId := st.nextTxId + 1 },
                 .error (.serverError "Failed to initiate B2C payment"))
              | some g =>
                let tx := Transaction.preSave now
                  { base with conversationId := some g.conversationId,
                              originatorConversationId :=
                                some g.originatorConversationId,
                              responseCode := some g.responseCode,
                              responseDescription :=
                                some g.responseDescription }
                ({ st with transactions := st.transactions ++ [tx],
                           gatewayCalls := st.gatewayCalls ++ [call],
                           nextTxId := st.nextTxId + 1 },
                 .ok ())

/-- `POST /b2c-result` — payout result callback.  The lookup filters on the
conversation ids and `transactionType: 'B2C'` only — *no* `status: 'PENDING'`
filter — and always answers with the success envelope.  The task update uses
`findByIdAndUpdate` (no `updatedAt` bump).  Notification creation needs both a
populated `toUser` and a populated `task`; otherwise the inner catch swallows
the throw. -/
def b2cResult (conversationID originatorConversationID : String)
    (resultCode : ℤ) (resultDesc : String) (receipt : Option String)
    (now : Time) (st : State) : State × MpesaResp :=
  match st.transactions.find? (fun t =>
      (t.conversationId == some conversationID ||
       t.originatorConversationId == some originatorConversationID) &&
      t.transactionType == TxType.B2C) with
  | none => (st, mpesaSuccess)
  | some tx =>
    if resultCode = 0 then
      let st1 := match tx.task with
        | some tid =>
          if (st.findTask tid).isSome then
            st.updateTask tid fun t =>
              { t with paymentStatus := .paid, status := .paid }
          else st
        | none => st
      let st2 := match tx.toUser, tx.task with
        | some u, some tid =>
          if (st.findTask tid).isSome then
            st1.addNotification u "Payment received for completed task"
              .payment (some tid) none now
          else st1
        | _, _ => st1
      let st3 := st2.updateTx tx.id fun t =>
        Transaction.preSave now
          { t with status := .COMPLETED, completedAt := some now,
                   mpesaTransactionId :=
                     match receipt with
                     | some r => some r
                     | none => t.mpesaTransactionId,
                   mpesaReceiptNumber :=
                     match receipt with
                     | some r => some r
                     | none => t.mpesaReceiptNumber,
                   responseCode := some (toString resultCode),
                   responseDescription := some resultDesc,
                   callbackReceived := true, callbackData := true }
      (st3, mpesaSuccess)
    else
      let st1 := st.updateTx tx.id fun t =>
        Transaction.preSave now
          { t with status := .FAILED, errorMessage := some resultDesc,
                   responseCode := some (toString resultCode),
                   responseDescription := some resultDesc,
                   callbackReceived := true, callbackData := true }
      (st1, mpesaSuccess)

/-- JS `x || fallback` on an optional string (the empty string is falsy). -/
def jsOrString (v : Option String) (fallback : String) : String :=
  match v with
  | some s => if s = "" then fallback else s
  | none => fallback

/-- `POST /b2c-timeout` — payout timeout callback.  This lookup *does* filter
on `status: 'PENDING'`.  The notification it attempts uses type `'error'`,
which the Notification schema enum rejects, so no record is created. -/
def b2cTimeout (conversationID originatorConversationID : String)
    (resultCode : Option ℤ) (resultDesc : Option String) (now : Time)
    (st : State) : State × MpesaResp :=
  match st.transactions.find? (fun t =>
      (t.conversationId == some conversationID ||
       t.originatorConversationId == some originatorConversationID) &&
      t.transactionType == TxType.B2C && t.status == TxStatus.PENDING) with
  | none => (st, mpesaSuccess)
  | some tx =>
    let st1 := st.updateTx tx.id fun t =>
      Transaction.preSave now
        { t with status := .TIMEOUT,
                 errorMessage :=
                   some (jsOrString resultDesc "Transaction timed out"),
                 responseCode :=
                   some (jsOrString (resultCode.map toString) "TIMEOUT"),
                 responseDescription :=
                   some (jsOrString resultDesc "Request timed out"),
                 callbackReceived := true, callbackData := true }
    (st1, mpesaSuccess)

/-! ## Events and reachability -/

/-- One invocation of a state-mutating operation, with all request data and
the gateway environment as parameters. -/
inductive Event
  | create (title description : String) (budget : ℚ) (caller : Id)
      (now : Time)
  | applyTo (tid caller : Id) (now : Time)
  | assign (tid applicantId caller : Id) (now : Time)
  | complete (tid caller : Id) (now : Time)
  | pay (tid caller : Id) (now : Time)
  | simulate (tid : Id) (phoneNumber : String) (amount : ℚ) (caller : Id)
      (gw : Option GwData) (now : Time)
  | confirm (billRefTask : Option Id) (transID : String) (now : Time)
  | b2cPay (tid : Id) (phoneNumber : String) (caller : Id)
      (gw : Option GwData) (now : Time)
  | b2cRes (conversationID originatorConversationID : String)
      (resultCode : ℤ) (resultDesc : String) (receipt : Option String)
      (now : Time)
  | b2cTime (conversationID originatorConversationID : String)
      (resultCode : Option ℤ) (resultDesc : Option String) (now : Time)

/-- The state after handling one event (the HTTP outcome is dropped; a
rejected request leaves the state as the handler left it). -/
def stepEv (e : Event) (st : State) : State :=
  match e with
  | .create title description budget caller now =>
      (createTask title description budget caller now st).1
  | .applyTo tid caller now => (applyToTask tid caller now st).1
  | .assign tid applicantId caller now =>
      (assignTask tid applicantId caller now st).1
  | .complete tid caller now => (completeTask tid caller now st).1
  | .pay tid caller now => (payTask tid caller now st).1
  | .simulate tid phoneNumber amount caller gw now =>
      (simulateC2B tid phoneNumber amount caller gw now st).1
  | .confirm billRefTask transID now =>
      (c2bConfirmation billRefTask transID now st).1
  | .b2cPay tid phoneNumber caller gw now =>
      (b2cPayment tid phoneNumber caller gw now st).1
  | .b2cRes c o rc rd receipt now => (b2cResult c o rc rd receipt now st).1
  | .b2cTime c o rc rd now => (b2cTimeout c o rc rd now st).1

/-- Whether an event is a C2B confirmation-callback delivery. -/
def Event.isConfirm : Event → Bool
  | .confirm _ _ _ => true
  | _ => false

/-- States reachable from the empty store through the system's operations. -/
inductive Reached : State → Prop
  | init : Reached State.init
  | step (e : Event) (st : State) (h : Reached st) : Reached (stepEv e st)

/-- States reachable without ever delivering a C2B confirmation callback. -/
inductive ReachedNC : State → Prop
  | init : ReachedNC State.init
  | step (e : Event) (st : State) (he : e.isConfirm = false)
      (h : ReachedNC st) : ReachedNC (stepEv e st)

/-! ## Invariant predicates (claim C1) -/

/-- The spec's invariant on one task: `paymentStatus = paid` implies
`status ∈ \x7bcompleted, paid\x7d`. -/
def paidImpliesSettled (t : Task) : Prop :=
  t.paymentStatus = .paid → (t.status = .completed ∨ t.status = .paid)

/-- The spec's claimed store-wide invariant. -/
def specPaymentInvariant (st : State) : Prop :=
  ∀ t ∈ st.tasks, paidImpliesSettled t

/-- The weakened per-task invariant that the code does maintain (away from
the confirmation callback): a paid task has at least left `open`. -/
def paidImpliesStarted (t : Task) : Prop :=
  t.paymentStatus = .paid →
    (t.status = .inProgress ∨ t.status = .completed ∨ t.status = .paid)

/-- Store-wide version of `paidImpliesStarted`. -/
def amendedPaymentInvariant (st : State) : Prop :=
  ∀ t ∈ st.tasks, paidImpliesStarted t

/-- Well-formedness of the task store: ids are pairwise distinct and below
the id counter (what Mongo's unique `_id` gives for free). -/
def tasksWF (st : State) : Prop :=
  (st.tasks.map Task.id).Nodup ∧ ∀ t ∈ st.tasks, t.id < st.nextTaskId

/-! ## Generic helper lemmas -/

instance : DecidableEq (Except ApiError Unit) := fun a b =>
  match a, b with
  | .ok (), .ok () => isTrue rfl
  | .error e1, .error e2 =>
      match decEq e1 e2 with
      | isTrue h => isTrue (h ▸ rfl)
      | isFalse h => isFalse fun hc => h (by injection hc)
  | .ok _, .error _ => isFalse (by intro h; cases h)
  | .error _, .ok _ => isFalse (by intro h; cases h)

theorem findTask_addNotification (st : State) (u : Id) (m : String)
    (ty : NotifType) (rt ru : Option Id) (n : Time) (tid : Id) :
    ((st.addNotification u m ty rt ru n).findTask tid) = st.findTask tid :=
  rfl

theorem tasks_addNotification (st : State) (u : Id) (m : String)
    (ty : NotifType) (rt ru : Option Id) (n : Time) :
    (st.addNotification u m ty rt ru n).tasks = st.tasks :=
  rfl

/-- Writing back a document found by key rewrites exactly the found result:
`find?` on the rewritten list is the old result with the write applied. -/
theorem find?_key_update {α : Type} (key : α → Id) (l : List α) (i : Id)
    (f : α → α) (hf : ∀ t, key (f t) = key t) :
    ((l.map fun t => if key t = i then f t else t).find?
        fun t => key t == i) =
      Option.map f (l.find? fun t => key t == i) := by
  induction l with
  | nil => rfl
  | cons a l ih =>
    simp only [List.map_cons]
    by_cases h : key a = i
    · rw [if_pos h, List.find?_cons_of_pos _ (by simp [hf, h]),
        List.find?_cons_of_pos _ (by simp [h])]
      rfl
    · rw [if_neg h, List.find?_cons_of_neg _ (by simp [h]),
        List.find?_cons_of_neg _ (by simp [h])]
      exact ih

/-- `findTask` after `updateTask` (write functions preserve the id). -/
theorem findTask_updateTask (st : State) (tid : Id) (f : Task → Task)
    (hf : ∀ t, (f t).id = t.id) :
    (st.updateTask tid f).findTask tid = Option.map f (st.findTask tid) :=
  find?_key_update Task.id st.tasks tid f hf

/-! ## Claim C9 — phone normalization -/

theorem stripPhone_keep (c : Char) (l : List Char)
    (h : (c.isWhitespace || c == '-' || c == '+') = false) :
    stripPhone (c :: l) = c :: stripPhone l := by
  simp only [stripPhone, List.filter_cons, h]
  rfl

theorem stripPhone_drop (c : Char) (l : List Char)
    (h : (c.isWhitespace || c == '-' || c == '+') = true) :
    stripPhone (c :: l) = stripPhone l := by
  simp only [stripPhone, List.filter_cons, h]
  rfl

/-- C9: `formatPhoneNumber`/`validatePhoneNumber` accept the local form
(leading `0`), the international form (leading `254`, a leading `+` being
stripped), and the bare subscriber form (leading `7` or `1`); every accepted
input is normalized to the canonical `254[71]` + 8 digits form, and every
input whose normalized form misses that pattern — or that cannot be
normalized at all — is rejected (`none`, a thrown validation error in the
source). -/
theorem c9_phone_normalization :
    (∀ l q, validatePhoneNumber l = some q → kenyanPhoneRegex q = true) ∧
    (∀ rest, validatePhoneNumber ('0' :: rest) =
      (if kenyanPhoneRegex ('2' :: '5' :: '4' :: stripPhone rest) then
        some ('2' :: '5' :: '4' :: stripPhone rest) else none)) ∧
    (∀ l, validatePhoneNumber ('+' :: l) = validatePhoneNumber l) ∧
    (∀ rest, validatePhoneNumber ('2' :: '5' :: '4' :: rest) =
      (if kenyanPhoneRegex ('2' :: '5' :: '4' :: stripPhone rest) then
        some ('2' :: '5' :: '4' :: stripPhone rest) else none)) ∧
    (∀ rest, validatePhoneNumber ('7' :: rest) =
      (if kenyanPhoneRegex ('2' :: '5' :: '4' :: '7' :: stripPhone rest) then
        some ('2' :: '5' :: '4' :: '7' :: stripPhone rest) else none)) ∧
    (∀ rest, validatePhoneNumber ('1' :: rest) =
      (if kenyanPhoneRegex ('2' :: '5' :: '4' :: '1' :: stripPhone rest) then
        some ('2' :: '5' :: '4' :: '1' :: stripPhone rest) else none)) ∧
    (∀ l, formatPhoneNumber l = none → validatePhoneNumber l = none) := by
  refine ⟨?_, ?_, ?_, ?_, ?_, ?_, ?_⟩
  · intro l q h
    unfold validatePhoneNumber at h
    rcases hf : formatPhoneNumber l with - | f <;> rw [hf] at h
    · exact Option.noConfusion h
    · dsimp only at h
      by_cases hreg : kenyanPhoneRegex f = true
      · rw [if_pos hreg] at h
        injection h with h2
        exact h2 ▸ hreg
      · rw [if_neg hreg] at h
        exact Option.noConfusion h
  · intro rest
    unfold validatePhoneNumber formatPhoneNumber
    rw [stripPhone_keep '0' rest (by decide)]
    simp [formatStripped]
  · intro l
    unfold validatePhoneNumber formatPhoneNumber
    rw [stripPhone_drop '+' l (by decide)]
  · intro rest
    unfold validatePhoneNumber formatPhoneNumber
    rw [stripPhone_keep '2' _ (by decide), stripPhone_keep '5' _ (by decide),
      stripPhone_keep '4' _ (by decide)]
    simp [formatStripped]
  · intro rest
    unfold validatePhoneNumber formatPhoneNumber
    rw [stripPhone_keep '7' rest (by decide)]
    simp [formatStripped]
  · intro rest
    unfold validatePhoneNumber formatPhoneNumber
    rw [stripPhone_keep '1' rest (by decide)]
    simp [formatStripped]
  · intro l h
    unfold validatePhoneNumber
    rw [h]

/-- Witness for C9 at concrete inputs: `0712345678`, `+254712345678`,
`712345678` and `112345678` normalize to canonical forms, and `0812345678`
(bad carrier prefix) and `9123` (unformattable) are rejected. -/
theorem c9_phone_normalization_witness :
    kenyanPhoneRegex "254712345678".data = true ∧
    validatePhoneNumber "0712345678".data = some "254712345678".data ∧
    validatePhoneNumber "+254712345678".data =
      validatePhoneNumber "254712345678".data ∧
    validatePhoneNumber "254712345678".data = some "254712345678".data ∧
    validatePhoneNumber "712345678".data = some "254712345678".data ∧
    validatePhoneNumber "112345678".data = some "254112345678".data ∧
    validatePhoneNumber "0812345678".data = none ∧
    validatePhoneNumber "9123".data = none := by
  refine ⟨c9_phone_normalization.1 "0712345678".data "254712345678".data
      (by decide), ?_, c9_phone_normalization.2.2.1 "254712345678".data,
      ?_, ?_, ?_, ?_,
      c9_phone_normalization.2.2.2.2.2.2 "9123".data (by decide)⟩
  · rw [show "0712345678".data = '0' :: "712345678".data from rfl,
      c9_phone_normalization.2.1 "712345678".data]
    decide
  · rw [show "254712345678".data = '2' :: '5' :: '4' :: "712345678".data
      from rfl, c9_phone_normalization.2.2.2.1 "712345678".data]
    decide
  · rw [show "712345678".data = '7' :: "12345678".data from rfl,
      c9_phone_normalization.2.2.2.2.1 "12345678".data]
    decide
  · rw [show "112345678".data = '1' :: "12345678".data from rfl,
      c9_phone_normalization.2.2.2.2.2.1 "12345678".data]
    decide
  · rw [show "0812345678".data = '0' :: "812345678".data from rfl,
      c9_phone_normalization.2.1 "812345678".data]
    decide

/-! ## Claim C8 — duplicate application -/

/-- C8: a second apply call by a user already in the task's applicants list is
rejected with a Conflict (HTTP 400) error, the store is unchanged, and in
particular the applicant list keeps its length. -/
theorem c8_duplicate_apply_conflict (st : State) (tid caller : Id)
    (now : Time) (task : Task) (hfind : st.findTask tid = some task)
    (hdup : caller ∈ task.applicants.map Applicant.user) :
    (applyToTask tid caller now st).1 = st ∧
    (∃ e, (applyToTask tid caller now st).2 = .error e ∧
      e.isConflict = true) ∧
    ((applyToTask tid caller now st).1.findTask tid).map
        (fun t => t.applicants.length) = some task.applicants.length := by
  have hany : task.applicants.any (fun a => a.user == caller) = true := by
    rcases List.mem_map.mp hdup with ⟨a, ha, hu⟩
    exact List.any_eq_true.mpr ⟨a, ha, by simp [hu]⟩
  by_cases hown : task.postedBy = caller
  · simp only [applyToTask, hfind, hown, if_pos rfl]
    exact ⟨rfl, ⟨_, rfl, rfl⟩, by simp [hfind]⟩
  · simp only [applyToTask, hfind, if_neg hown, hany, if_pos rfl]
    exact ⟨rfl, ⟨_, rfl, rfl⟩, by simp [hfind]⟩

def c8Task : Task :=
  { id := 0, title := "T", description := "d", budget := 500,
    status := .open_, postedBy := 1, applicants := [⟨2, 1⟩], createdAt := 0,
    updatedAt := 1 }

def c8State : State := ⟨[c8Task], [], [], [], 1, 0⟩

/-- Witness for C8: user 2 already applied to task 0; a second apply is a
400 Conflict and changes nothing. -/
theorem c8_duplicate_apply_conflict_witness :
    (applyToTask 0 2 9 c8State).1 = c8State ∧
    (∃ e, (applyToTask 0 2 9 c8State).2 = .error e ∧ e.isConflict = true) ∧
    ((applyToTask 0 2 9 c8State).1.findTask 0).map
        (fun t => t.applicants.length) = some c8Task.applicants.length :=
  c8_duplicate_apply_conflict c8State 0 2 9 c8Task (by decide) (by decide)

/-! ## Claim C10 — complete ignores the current status -/

/-- C10: the complete guard checks only that the caller is `assignedTo`; for
any current status (including `paid`) the call succeeds, sets
`status = completed` and overwrites `completedAt` with the current time. -/
theorem c10_complete_ignores_status (st : State) (tid caller : Id)
    (now : Time) (task : Task) (hfind : st.findTask tid = some task)
    (hassigned : task.assignedTo = some caller) :
    (completeTask tid caller now st).2 = .ok () ∧
    (completeTask tid caller now st).1.findTask tid =
      some { task with status := .completed, completedAt := some now,
                       updatedAt := now } := by
  simp only [completeTask, hfind, hassigned, ne_eq, not_true_eq_false,
    if_neg, ite_false]
  refine ⟨by simp, ?_⟩
  rw [findTask_addNotification, findTask_updateTask, hfind]
  · simp [hassigned]
  · intro t; rfl

def c10Task : Task :=
  { id := 0, title := "T", description := "d", budget := 500, status := .paid,
    paymentStatus := .paid, postedBy := 1, assignedTo := some 2,
    applicants := [⟨2, 1⟩], completedAt := some 3, paidAt := some 5,
    createdAt := 0, updatedAt := 6 }

def c10State : State := ⟨[c10Task], [], [], [], 1, 0⟩

/-- Witness for C10: completing an already paid task (paidAt = 5) at time 9
succeeds and moves `completedAt` past `paidAt`. -/
theorem c10_complete_ignores_status_witness :
    ((completeTask 0 2 9 c10State).2 = .ok () ∧
      (completeTask 0 2 9 c10State).1.findTask 0 =
        some { c10Task with status := .completed, completedAt := some 9,
                            updatedAt := 9 }) ∧
    c10Task.status = .paid ∧ c10Task.paidAt = some 5 ∧ (5 : Time) < 9 :=
  ⟨c10_complete_ignores_status c10State 0 2 9 c10Task (by decide) (by decide),
   by decide, by decide, by decide⟩

/-! ## Claim C3 — assignment is not restricted to applicants -/

def c3Task : Task :=
  { id := 0, title := "T", description := "d", budget := 500,
    status := .open_, postedBy := 1, createdAt := 0, updatedAt := 0 }

def c3State : State := ⟨[c3Task], [], [], [], 1, 0⟩

/-- C3 counterexample: the owner assigns user 99, who never applied (the
applicants list is empty); the call succeeds with `assignedTo = 99` instead
of being rejected with Conflict. -/
theorem c3_counterexample :
    (assignTask 0 99 1 5 c3State).2 = .ok () ∧
    ((assignTask 0 99 1 5 c3State).1.findTask 0).map Task.assignedTo =
      some (some 99) ∧
    ((assignTask 0 99 1 5 c3State).1.findTask 0).map Task.status =
      some .inProgress ∧
    c3Task.applicants = [] := by decide

/-- C3 amended: the assign route checks only ownership; for the owner it
succeeds with *any* `applicantId`, whether or not that user applied, so
`assignedTo` is not confined to the applicant pool. -/
theorem c3_assign_unrestricted (st : State) (tid applicantId caller : Id)
    (now : Time) (task : Task) (hfind : st.findTask tid = some task)
    (hown : task.postedBy = caller) :
    (assignTask tid applicantId caller now st).2 = .ok () ∧
    (assignTask tid applicantId caller now st).1.findTask tid =
      some { task with assignedTo := some applicantId, status := .inProgress,
                       updatedAt := now } := by
  simp only [assignTask, hfind, hown, ne_eq, not_true_eq_false, ite_false]
  refine ⟨by simp, ?_⟩
  rw [findTask_addNotification, findTask_updateTask, hfind]
  · simp [hown]
  · intro t; rfl

/-- Witness for C3's amended theorem at the counterexample state. -/
theorem c3_assign_unrestricted_witness :
    (assignTask 0 99 1 5 c3State).2 = .ok () ∧
    (assignTask 0 99 1 5 c3State).1.findTask 0 =
      some { c3Task with assignedTo := some 99, status := .inProgress,
                         updatedAt := 5 } :=
  c3_assign_unrestricted c3State 0 99 1 5 c3Task (by decide) (by decide)

/-! ## Claim C4 — callback response envelopes -/

/-- C4 counterexample: the collection-validation endpoint does not return the
fixed success envelope for every input — a missing bill reference yields the
rejection code C2B00011. -/
theorem c4_counterexample :
    c2bValidation none 0 State.init =
      ⟨.str "C2B00011", "Invalid Bill Reference"⟩ ∧
    c2bValidation none 0 State.init ≠ mpesaSuccess := by decide

/-- C4 amended: the confirmation, payout-result and payout-timeout callbacks
answer with the fixed success envelope for every input and every state, also
when no matching record exists; the collection-validation callback answers
success only when the reference resolves, the task exists and the amount
matches the budget, and otherwise returns a C2B000xx rejection code. -/
theorem c4_callback_envelopes :
    (∀ billRefTask transID now st,
      (c2bConfirmation billRefTask transID now st).2 = mpesaSuccess) ∧
    (∀ c o rc rd receipt now st,
      (b2cResult c o rc rd receipt now st).2 = mpesaSuccess) ∧
    (∀ c o rc rd now st, (b2cTimeout c o rc rd now st).2 = mpesaSuccess) ∧
    (∀ amt st, c2bValidation none amt st =
      ⟨.str "C2B00011", "Invalid Bill Reference"⟩) ∧
    (∀ tid amt st, st.findTask tid = none →
      c2bValidation (some tid) amt st =
        ⟨.str "C2B00012", "Task not found"⟩) ∧
    (∀ tid amt st task, st.findTask tid = some task → amt ≠ task.budget →
      c2bValidation (some tid) amt st =
        ⟨.str "C2B00013", "Amount does not match task budget"⟩) ∧
    (∀ tid amt st task, st.findTask tid = some task → amt = task.budget →
      c2bValidation (some tid) amt st = mpesaSuccess) := by
  refine ⟨?_, ?_, ?_, ?_, ?_, ?_, ?_⟩
  · intro billRefTask transID now st
    unfold c2bConfirmation
    repeat' (first | rfl | split | dsimp only)
  · intro c o rc rd receipt now st
    unfold b2cResult
    repeat' (first | rfl | split)
  · intro c o rc rd now st
    unfold b2cTimeout
    repeat' (first | rfl | split)
  · intro amt st
    rfl
  · intro tid amt st h
    simp [c2bValidation, h]
  · intro tid amt st task h1 h2
    simp [c2bValidation, h1, h2]
  · intro tid amt st task h1 h2
    simp [c2bValidation, h1, h2]

/-- Witness for C4's validation conjuncts at concrete inputs. -/
theorem c4_callback_envelopes_witness :
    c2bValidation (some 5) 0 State.init =
      ⟨.str "C2B00012", "Task not found"⟩ ∧
    c2bValidation (some 0) 7 c3State =
      ⟨.str "C2B00013", "Amount does not match task budget"⟩ ∧
    c2bValidation (some 0) 500 c3State = mpesaSuccess :=
  ⟨c4_callback_envelopes.2.2.2.2.1 5 0 State.init (by decide),
   c4_callback_envelopes.2.2.2.2.2.1 0 7 c3State c3Task (by decide)
     (by decide),
   c4_callback_envelopes.2.2.2.2.2.2 0 500 c3State c3Task (by decide)
     (by decide)⟩

/-! ## Claim C5 — payout eligibility checks precede all writes -/

/-- C5 amended: every failed eligibility check in the payout route aborts
before the transaction write and before the gateway call — any non-500 error
leaves the store (transaction ledger and gateway-call log) unchanged.  The
error kinds differ from the claim: a missing task is NotFound (404) and a
non-owner caller is Authorization (403); the state checks are 400 Conflicts,
shown here for the task-status check. -/
theorem c5_checks_before_writes (tid : Id) (phone : String) (caller : Id)
    (gw : Option GwData) (now : Time) (st : State) :
    (∀ e, (b2cPayment tid phone caller gw now st).2 = .error e →
      e.isServerError = false →
      (b2cPayment tid phone caller gw now st).1 = st) ∧
    (∀ task, st.findTask tid = some task → task.postedBy = caller →
      task.status ≠ .completed →
      b2cPayment tid phone caller gw now st =
        (st, .error (.badRequest "Task must be completed before payment"))) := by
  constructor
  · intro e he hs
    rcases h1 : st.findTask tid with - | task
    · simp [b2cPayment, h1]
    by_cases h2 : task.postedBy = caller
    swap
    · simp [b2cPayment, h1, h2]
    by_cases h3 : task.status = .completed
    swap
    · simp [b2cPayment, h1, h2, h3]
    rcases h4 : task.assignedTo with - | worker
    · simp [b2cPayment, h1, h2, h3, h4]
    rcases h5 : st.transactions.find? (fun t =>
        t.task == some tid && t.transactionType == TxType.C2B &&
        t.status == TxStatus.COMPLETED) with - | c2b
    · simp [b2cPayment, h1, h2, h3, h4, h5]
    rcases h6 : st.transactions.find? (fun t =>
        t.task == some tid && t.transactionType == TxType.B2C &&
        (t.status == TxStatus.PENDING || t.status == TxStatus.COMPLETED))
        with - | ex
    swap
    · simp [b2cPayment, h1, h2, h3, h4, h5, h6]
    rcases h7 : validatePhoneNumber phone.data with - | fphone
    · simp [b2cPayment, h1, h2, h3, h4, h5, h6, h7]
    rcases gw with - | g
    · simp only [b2cPayment, h1, h2, h3, h4, h5, h6, h7] at he
      simp at he
      subst he
      simp [ApiError.isServerError] at hs
    · simp only [b2cPayment, h1, h2, h3, h4, h5, h6, h7] at he
      simp at he
  · intro task hf ho hs
    simp [b2cPayment, hf, ho, hs]

def c5Task : Task :=
  { id := 0, title := "T", description := "d", budget := 500,
    status := .inProgress, postedBy := 1, assignedTo := some 2,
    applicants := [⟨2, 1⟩], createdAt := 0, updatedAt := 2 }

def c5State : State := ⟨[c5Task], [], [], [], 1, 0⟩

/-- C5 counterexample: not every failed payout check aborts with a Conflict
error — a non-owner caller gets an Authorization (403) error and a missing
task gets NotFound (404), neither of which is the 400 Conflict class. -/
theorem c5_counterexample :
    (b2cPayment 0 "0712345678" 7 none 9 c5State).2 =
      .error (.forbidden "Only task owner can trigger payment") ∧
    (ApiError.forbidden "Only task owner can trigger payment").isConflict =
      false ∧
    (b2cPayment 5 "0712345678" 1 none 9 c5State).2 =
      .error (.notFound "Task not found") ∧
    (ApiError.notFound "Task not found").isConflict = false := by
  decide

/-- Witness for C5: paying a task still in progress is rejected with a 400
and writes nothing. -/
theorem c5_checks_before_writes_witness :
    b2cPayment 0 "0712345678" 1 none 9 c5State =
      (c5State, .error (.badRequest "Task must be completed before payment")) ∧
    (b2cPayment 0 "0712345678" 1 none 9 c5State).1 = c5State :=
  ⟨(c5_checks_before_writes 0 "0712345678" 1 none 9 c5State).2 c5Task
     (by decide) (by decide) (by decide),
   (c5_checks_before_writes 0 "0712345678" 1 none 9 c5State).1
     (.badRequest "Task must be completed before payment") (by decide)
     (by decide)⟩

/-! ## Claim C6 — the post → apply → assign → complete → pay scenario -/

/-- The claimed scenario, step by step: owner 1 posts the task (budget 500),
worker 2 applies, the owner assigns worker 2, worker 2 marks it complete, the
owner pays through the pay route. -/
def c6Scenario : State :=
  stepEv (.pay 0 1 5)
    (stepEv (.complete 0 2 4)
      (stepEv (.assign 0 2 1 3)
        (stepEv (.applyTo 0 2 2)
          (stepEv (.create "Task" "desc" 500 1 1) State.init))))

/-- C6 counterexample: after the claimed five-step scenario the task's status
is `completed`, not `paid`, and no payout (B2C) transaction exists at all;
only `paymentStatus` is `paid`. -/
theorem c6_counterexample :
    ((c6Scenario.findTask 0).map Task.status = some .completed) ∧
    ((c6Scenario.findTask 0).map Task.status ≠ some .paid) ∧
    ((c6Scenario.findTask 0).map Task.paymentStatus = some .paid) ∧
    (c6Scenario.transactions.filter
        (fun t => t.transactionType == TxType.B2C)).length = 0 := by
  decide

/-- The extended flow that does reach the claimed final state: the scenario
above followed by simulate-collection of 500, the collection-confirmation
callback, payout initiation, and a successful payout-result callback. -/
def c6FullFlow : State :=
  stepEv (.b2cRes "c2" "o2" 0 "ok" (some "R2") 8)
    (stepEv (.b2cPay 0 "0712345678" 1 (some ⟨"c2", "o2", "0", "Accepted"⟩) 7)
      (stepEv (.confirm (some 0) "REC1" 6)
        (stepEv (.simulate 0 "0712345678" 500 1
          (some ⟨"c1", "o1", "0", "Accepted"⟩) 5) c6Scenario)))

/-- C6 amended: the claimed final state — `status = paid`,
`paymentStatus = paid`, and exactly one payout transaction with amount 500,
commission 50, netAmount 450 — is reached by the extended flow that also runs
the collection and the two gateway callbacks. -/
theorem c6_amended_full_flow :
    ((c6FullFlow.findTask 0).map Task.status = some .paid) ∧
    ((c6FullFlow.findTask 0).map Task.paymentStatus = some .paid) ∧
    (c6FullFlow.transactions.filter
        (fun t => t.transactionType == TxType.B2C)).map
          (fun t => (t.amount, t.commission, t.netAmount, t.status)) =
      [(500, 50, some 450, .COMPLETED)] := by
  set_option maxHeartbeats 4000000 in
  norm_num +decide [c6FullFlow, c6Scenario, stepEv, createTask, applyToTask,
    assignTask, completeTask, payTask, simulateC2B, c2bConfirmation,
    b2cPayment, b2cResult, State.init, State.findTask, State.updateTask,
    State.updateTx, State.addNotification, Transaction.preSave,
    validatePhoneNumber, formatPhoneNumber, formatStripped, stripPhone,
    List.filter, List.find?, Transaction.hookFires, kenyanPhoneRegex]

/-! ## Claim C7 — payout commission arithmetic -/

/-- The money fields of a transaction: gross amount, commission, net. -/
def moneyView (t : Transaction) : ℚ × ℚ × Option ℚ :=
  (t.amount, t.commission, t.netAmount)

theorem preSave_skip (now : Time) (t : Transaction) (h : ¬ t.hookFires) :
    t.preSave now = { t with updatedAt := now } := by
  unfold Transaction.preSave
  rw [if_neg]
  intro hc
  exact h hc

/-- A payout record whose net amount was already set to gross minus 10% does
not trigger the commission hook (the hook needs a falsy `netAmount`, and
gross minus 10% is zero only for a zero gross, which the hook also skips). -/
theorem hookFires_not_of_net (t : Transaction)
    (hnet : t.netAmount = some (t.amount - t.amount * (0.10 : ℚ))) :
    ¬ t.hookFires := by
  rintro ⟨-, hne, hz | hz⟩
  · rw [hnet] at hz
    cases hz
  · rw [hnet] at hz
    have h0 := Option.some.inj hz
    have h1 : (0.10 : ℚ) = 1 / 10 := by norm_num
    rw [h1] at h0
    apply hne
    linarith

theorem moneyView_preSave (now : Time) (t : Transaction)
    (h : ¬ t.hookFires) : moneyView (t.preSave now) = moneyView t := by
  rw [preSave_skip now t h]
  rfl

/-- Saving a modified copy `m` of a document `t` that touches none of the
hook-relevant fields keeps the money fields, provided the hook would not fire
on `t`. -/
theorem moneyView_preSave_congr (now : Time) (m t : Transaction)
    (h : ¬ t.hookFires) (h1 : m.transactionType = t.transactionType)
    (h2 : m.amount = t.amount) (h3 : m.netAmount = t.netAmount)
    (h4 : m.commission = t.commission) :
    moneyView (m.preSave now) = moneyView t := by
  have hnf : ¬ m.hookFires := by
    unfold Transaction.hookFires at *
    rw [h1, h2, h3]
    exact h
  rw [preSave_skip now m hnf]
  show (m.amount, m.commission, m.netAmount) =
    (t.amount, t.commission, t.netAmount)
  rw [h2, h3, h4]

theorem transactions_updateTask (st : State) (tid : Id) (f : Task → Task) :
    (st.updateTask tid f).transactions = st.transactions :=
  rfl

theorem transactions_addNotification (st : State) (u : Id) (m : String)
    (ty : NotifType) (rt ru : Option Id) (n : Time) :
    (st.addNotification u m ty rt ru n).transactions = st.transactions :=
  rfl

/-- Rewriting one document by id preserves the money fields of the ledger as
long as the rewrite function does. -/
theorem map_moneyView_update (l : List Transaction) (i : Id)
    (g : Transaction → Transaction)
    (hg : ∀ t ∈ l, moneyView (g t) = moneyView t) :
    ((l.map fun t => if t.id = i then g t else t).map moneyView) =
      l.map moneyView := by
  rw [List.map_map]
  apply List.map_congr_left
  intro t ht
  by_cases h : t.id = i <;> simp [h, hg t ht]

/-- C7: (creation) a successful payout initiation appends exactly one
transaction, whose commission is 10% of the gross amount and whose net amount
is gross minus commission, while the gateway receives the integer-rounded net
amount; (immutability) the payout-result and payout-timeout callbacks leave
the money fields of every ledger entry unchanged (on ledgers whose entries do
not re-trigger the creation-time commission hook, i.e. whose net amounts are
already set). -/
theorem c7_commission_arithmetic :
    (∀ tid phone caller gw now st,
      (b2cPayment tid phone caller gw now st).2 = .ok () →
      ∃ tx, (b2cPayment tid phone caller gw now st).1.transactions =
          st.transactions ++ [tx] ∧
        tx.transactionType = .B2C ∧
        tx.commission = tx.amount * (0.10 : ℚ) ∧
        tx.netAmount = some (tx.amount - tx.amount * (0.10 : ℚ)) ∧
        (b2cPayment tid phone caller gw now st).1.gatewayCalls =
          st.gatewayCalls ++
            [.b2cRequest (mathRound (tx.amount - tx.amount * (0.10 : ℚ)))
              tx.phoneNumber] ∧
        ∃ c2b, st.transactions.find? (fun t =>
            t.task == some tid && t.transactionType == TxType.C2B &&
            t.status == TxStatus.COMPLETED) = some c2b ∧
          tx.amount = c2b.amount) ∧
    (∀ c o rc rd receipt now st,
      (∀ t ∈ st.transactions, ¬ t.hookFires) →
      ((b2cResult c o rc rd receipt now st).1.transactions.map moneyView) =
        st.transactions.map moneyView) ∧
    (∀ c o rc rd now st,
      (∀ t ∈ st.transactions, ¬ t.hookFires) →
      ((b2cTimeout c o rc rd now st).1.transactions.map moneyView) =
        st.transactions.map moneyView) := by
  refine ⟨?_, ?_, ?_⟩
  · intro tid phone caller gw now st hok
    rcases h1 : st.findTask tid with - | task
    · simp [b2cPayment, h1] at hok
    by_cases h2 : task.postedBy = caller
    swap
    · simp [b2cPayment, h1, h2] at hok
    by_cases h3 : task.status = .completed
    swap
    · simp [b2cPayment, h1, h2, h3] at hok
    rcases h4 : task.assignedTo with - | worker
    · simp [b2cPayment, h1, h2, h3, h4] at hok
    rcases h5 : st.transactions.find? (fun t =>
        t.task == some tid && t.transactionType == TxType.C2B &&
        t.status == TxStatus.COMPLETED) with - | c2b
    · simp [b2cPayment, h1, h2, h3, h4, h5] at hok
    rcases h6 : st.transactions.find? (fun t =>
        t.task == some tid && t.transactionType == TxType.B2C &&
        (t.status == TxStatus.PENDING || t.status == TxStatus.COMPLETED))
        with - | ex
    swap
    · simp [b2cPayment, h1, h2, h3, h4, h5, h6] at hok
    rcases h7 : validatePhoneNumber phone.data with - | fphone
    · simp [b2cPayment, h1, h2, h3, h4, h5, h6, h7] at hok
    rcases gw with - | g
    · simp [b2cPayment, h1, h2, h3, h4, h5, h6, h7] at hok
    simp only [b2cPayment, h1, h2, h3, h4, h5, h6, h7, ne_eq,
      not_true_eq_false, ite_false]
    rw [preSave_skip _ _ (hookFires_not_of_net _ rfl)]
    exact ⟨_, rfl, rfl, rfl, rfl, rfl, c2b, rfl, rfl⟩
  · intro c o rc rd receipt now st hmoney
    rcases hfind : st.transactions.find? (fun t =>
        (t.conversationId == some c ||
         t.originatorConversationId == some o) &&
        t.transactionType == TxType.B2C) with - | tx
    · simp [b2cResult, hfind]
    have hg : ∀ g0 : Transaction → Transaction,
        (∀ t, ¬ t.hookFires → moneyView (g0 t) = moneyView t) →
        ((st.transactions.map fun t => if t.id = tx.id then g0 t else t).map
            moneyView) = st.transactions.map moneyView :=
      fun g0 hg0 => map_moneyView_update _ _ _
        (fun t ht => hg0 t (hmoney t ht))
    by_cases hrc : rc = 0
    · rcases htask : tx.task with - | tid
      · rcases huser : tx.toUser with - | u
        all_goals
          simp only [b2cResult, hfind, if_pos hrc, htask, huser,
            State.updateTx]
        all_goals
          exact hg _ (fun t h =>
            moneyView_preSave_congr now _ t h rfl rfl rfl rfl)
      rcases huser : tx.toUser with - | u
      · by_cases hfound : (st.findTask tid).isSome
        all_goals
          simp only [b2cResult, hfind, if_pos hrc, htask, huser, hfound,
            State.updateTx, transactions_updateTask, if_true, if_false,
            Bool.false_eq_true]
        all_goals
          exact hg _ (fun t h =>
            moneyView_preSave_congr now _ t h rfl rfl rfl rfl)
      · by_cases hfound : (st.findTask tid).isSome
        all_goals
          simp only [b2cResult, hfind, if_pos hrc, htask, huser, hfound,
            State.updateTx, transactions_updateTask,
            transactions_addNotification, if_true, if_false,
            Bool.false_eq_true]
        all_goals
          exact hg _ (fun t h =>
            moneyView_preSave_congr now _ t h rfl rfl rfl rfl)
    · simp only [b2cResult, hfind, if_neg hrc, State.updateTx]
      exact hg _ (fun t h =>
        moneyView_preSave_congr now _ t h rfl rfl rfl rfl)
  · intro c o rc rd now st hmoney
    rcases hfind : st.transactions.find? (fun t =>
        (t.conversationId == some c ||
         t.originatorConversationId == some o) &&
        t.transactionType == TxType.B2C &&
        t.status == TxStatus.PENDING) with - | tx
    · simp [b2cTimeout, hfind]
    simp only [b2cTimeout, hfind, State.updateTx]
    exact map_moneyView_update _ _ _ (fun t ht =>
      moneyView_preSave_congr now _ t (hmoney t ht) rfl rfl rfl rfl)

def c7Task : Task :=
  { id := 0, title := "T", description := "d", budget := 1000,
    status := .completed, postedBy := 1, assignedTo := some 2,
    applicants := [⟨2, 1⟩], completedAt := some 3, createdAt := 0,
    updatedAt := 3 }

def c7C2B : Transaction :=
  { id := 0, transactionType := .C2B, amount := 1000,
    phoneNumber := "254712345678", fromUser := some 1, task := some 0,
    status := .COMPLETED, initiatedAt := 2, createdAt := 2, updatedAt := 2 }

def c7State : State := ⟨[c7Task], [c7C2B], [], [], 1, 1⟩

/-- Witness for C7: a payout against a collection of gross 1000 stores
commission 100 and net 900, and the callbacks leave money fields alone. -/
theorem c7_commission_arithmetic_witness :
    (∃ tx, (b2cPayment 0 "0712345678" 1 (some ⟨"c", "o", "0", "ok"⟩) 9
        c7State).1.transactions = c7State.transactions ++ [tx] ∧
      tx.amount = 1000 ∧ tx.commission = 100 ∧ tx.netAmount = some 900) ∧
    ((b2cResult "x" "y" 0 "d" none 9 c7State).1.transactions.map moneyView =
      c7State.transactions.map moneyView) ∧
    ((b2cTimeout "x" "y" none none 9 c7State).1.transactions.map moneyView =
      c7State.transactions.map moneyView) := by
  refine ⟨?_, c7_commission_arithmetic.2.1 "x" "y" 0 "d" none 9 c7State
      (by decide),
    c7_commission_arithmetic.2.2 "x" "y" none none 9 c7State (by decide)⟩
  obtain ⟨tx, htr, -, hcom, hnet, -, c2b, hfind, hamt⟩ :=
    c7_commission_arithmetic.1 0 "0712345678" 1 (some ⟨"c", "o", "0", "ok"⟩)
      9 c7State (by decide)
  have h2 : (c7State.transactions.find? fun t =>
      t.task == some 0 && t.transactionType == TxType.C2B &&
      t.status == TxStatus.COMPLETED) = some c7C2B := by decide
  have hc2b : c2b = c7C2B := Option.some.inj (hfind.symm.trans h2)
  have hamt1000 : tx.amount = 1000 := by
    rw [hamt, hc2b]
    rfl
  refine ⟨tx, htr, hamt1000, ?_, ?_⟩
  · rw [hcom, hamt1000]
    norm_num
  · rw [hnet, hamt1000]
    norm_num

/-! ## Claim C2 — payout-result callback re-delivery -/

theorem preSave_status (now : Time) (t : Transaction) :
    (t.preSave now).status = t.status := by
  unfold Transaction.preSave
  dsimp only
  split <;> rfl

theorem preSave_conversationId (now : Time) (t : Transaction) :
    (t.preSave now).conversationId = t.conversationId := by
  unfold Transaction.preSave
  dsimp only
  split <;> rfl

theorem preSave_transactionType (now : Time) (t : Transaction) :
    (t.preSave now).transactionType = t.transactionType := by
  unfold Transaction.preSave
  dsimp only
  split <;> rfl

theorem preSave_task (now : Time) (t : Transaction) :
    (t.preSave now).task = t.task := by
  unfold Transaction.preSave
  dsimp only
  split <;> rfl

theorem preSave_toUser (now : Time) (t : Transaction) :
    (t.preSave now).toUser = t.toUser := by
  unfold Transaction.preSave
  dsimp only
  split <;> rfl

def c2Task : Task :=
  { id := 0, title := "T", description := "d", budget := 500,
    status := .completed, paymentStatus := .paid, postedBy := 1,
    assignedTo := some 2, applicants := [⟨2, 1⟩], completedAt := some 3,
    paidAt := some 4, createdAt := 0, updatedAt := 3 }

def c2Tx : Transaction :=
  { id := 0, transactionType := .B2C, amount := 500, commission := 50,
    netAmount := some 450, phoneNumber := "254712345678", fromUser := some 1,
    toUser := some 2, task := some 0, status := .PENDING,
    conversationId := some "c2", originatorConversationId := some "o2",
    initiatedAt := 4, createdAt := 4, updatedAt := 4 }

def c2State0 : State := ⟨[c2Task], [c2Tx], [], [], 1, 1⟩

def c2State1 : State := (b2cResult "c2" "o2" 0 "ok" (some "R") 5 c2State0).1

def c2State2 : State := (b2cResult "c2" "o2" 0 "ok" (some "R") 6 c2State1).1

/-- C2 counterexample: delivering the identical successful payout-result
payload twice leaves the transaction COMPLETED but creates a notification on
*each* delivery — two in total, not one: the `b2c-result` lookup has no
`status: PENDING` filter. -/
theorem c2_counterexample :
    c2State1.transactions.map Transaction.status = [.COMPLETED] ∧
    c2State1.notifications.length = 1 ∧
    c2State2.transactions.map Transaction.status = [.COMPLETED] ∧
    c2State2.notifications.length = 2 := by
  decide

/-- C2 amended: for any payout transaction (with a conversation id, a task,
and a payee) re-delivering an identical *successful* payout-result callback
leaves the transaction in the same terminal state (COMPLETED) and re-applies
the task update idempotently, but each delivery appends one more payment
notification — two across both deliveries. -/
theorem c2_redelivery_not_idempotent (task : Task) (tx : Transaction)
    (ns : List Notification) (gc : List GatewayCall) (a b u : Id)
    (conv orig rd : String) (receipt : Option String) (n1 n2 : Time)
    (hconv : tx.conversationId = some conv)
    (htyp : tx.transactionType = .B2C)
    (htask : tx.task = some task.id)
    (huser : tx.toUser = some u) :
    let st0 : State := ⟨[task], [tx], ns, gc, a, b⟩
    let st1 := (b2cResult conv orig 0 rd receipt n1 st0).1
    let st2 := (b2cResult conv orig 0 rd receipt n2 st1).1
    st1.transactions.map Transaction.status = [.COMPLETED] ∧
    st2.transactions.map Transaction.status = [.COMPLETED] ∧
    st1.notifications.length = ns.length + 1 ∧
    st2.notifications.length = ns.length + 2 ∧
    st2.tasks = st1.tasks := by
  intro st0 st1 st2
  simp only [st0, st1, st2, b2cResult, List.find?, hconv, htyp, htask, huser,
    beq_self_eq_true, Bool.true_or, Bool.true_and, Bool.and_self,
    State.findTask, State.updateTask, State.updateTx, State.addNotification,
    preSave_status, preSave_conversationId, preSave_transactionType,
    preSave_task, preSave_toUser, List.map_cons, List.map_nil,
    List.length_append, Option.isSome_some, if_true, if_pos rfl]
  norm_num

/-- Witness for C2's amended theorem at the concrete counterexample state. -/
theorem c2_redelivery_not_idempotent_witness :
    c2State1.transactions.map Transaction.status = [.COMPLETED] ∧
    c2State2.transactions.map Transaction.status = [.COMPLETED] ∧
    c2State1.notifications.length = 1 ∧
    c2State2.notifications.length = 2 ∧
    c2State2.tasks = c2State1.tasks :=
  c2_redelivery_not_idempotent c2Task c2Tx [] [] 1 1 2 "c2" "o2" "ok"
    (some "R") 5 6 rfl rfl rfl rfl

/-! ## Claim C1 — the paymentStatus/status invariant -/

instance (t : Task) : Decidable (paidImpliesSettled t) := by
  unfold paidImpliesSettled
  infer_instance

instance (st : State) : Decidable (specPaymentInvariant st) := by
  unfold specPaymentInvariant
  exact List.decidableBAll _ _

instance (t : Task) : Decidable (paidImpliesStarted t) := by
  unfold paidImpliesStarted
  infer_instance

instance (st : State) : Decidable (amendedPaymentInvariant st) := by
  unfold amendedPaymentInvariant
  exact List.decidableBAll _ _

/-- The inductive invariant: task-store well-formedness plus the weakened
payment invariant. -/
def taskStoreInv (st : State) : Prop :=
  tasksWF st ∧ amendedPaymentInvariant st

theorem taskStoreInv_congr (s1 s2 : State) (ht : s2.tasks = s1.tasks)
    (hn : s2.nextTaskId = s1.nextTaskId) (h : taskStoreInv s1) :
    taskStoreInv s2 := by
  unfold taskStoreInv tasksWF amendedPaymentInvariant at *
  rw [ht, hn]
  exact h

theorem findTask_unique (st : State) (tid : Id) (task : Task)
    (hnodup : (st.tasks.map Task.id).Nodup)
    (hfind : st.findTask tid = some task) :
    ∀ t ∈ st.tasks, t.id = tid → t = task := by
  intro t ht hid
  unfold State.findTask at hfind
  have h1 : task ∈ st.tasks := List.mem_of_find?_eq_some hfind
  have h2 := List.find?_some hfind
  have h3 : task.id = tid := by simpa using h2
  exact List.inj_on_of_nodup_map hnodup ht h1 (by rw [hid, h3])

theorem tasksWF_updateTask (st : State) (tid : Id) (f : Task → Task)
    (hf : ∀ t, (f t).id = t.id) (h : tasksWF st) :
    tasksWF (st.updateTask tid f) := by
  obtain ⟨hnodup, hlt⟩ := h
  constructor
  · have hmap : ((st.updateTask tid f).tasks.map Task.id) =
        st.tasks.map Task.id := by
      show ((st.tasks.map fun t => if t.id = tid then f t else t).map Task.id)
        = st.tasks.map Task.id
      rw [List.map_map]
      apply List.map_congr_left
      intro t _
      by_cases hid : t.id = tid <;> simp [hid, hf]
    rw [hmap]
    exact hnodup
  · intro t ht
    rcases List.mem_map.mp ht with ⟨s, hs, rfl⟩
    by_cases hid : s.id = tid
    · simp only [if_pos hid]
      rw [hf]
      exact hlt s hs
    · simp only [if_neg hid]
      exact hlt s hs

theorem amendedInv_updateTask (st : State) (tid : Id) (f : Task → Task)
    (hf : ∀ t ∈ st.tasks, t.id = tid → paidImpliesStarted t →
      paidImpliesStarted (f t))
    (h : amendedPaymentInvariant st) :
    amendedPaymentInvariant (st.updateTask tid f) := by
  intro t ht
  rcases List.mem_map.mp ht with ⟨s, hs, rfl⟩
  by_cases hid : s.id = tid
  · simp only [if_pos hid]
    exact hf s hs hid (h s hs)
  · simp only [if_neg hid]
    exact h s hs

theorem taskStoreInv_updateTask (st : State) (tid : Id) (f : Task → Task)
    (hf : ∀ t, (f t).id = t.id)
    (hp : ∀ t ∈ st.tasks, t.id = tid → paidImpliesStarted t →
      paidImpliesStarted (f t))
    (h : taskStoreInv st) : taskStoreInv (st.updateTask tid f) :=
  ⟨tasksWF_updateTask st tid f hf h.1, amendedInv_updateTask st tid f hp h.2⟩

theorem taskStoreInv_create (st : State) (t : Task) (h : taskStoreInv st)
    (hid : t.id = st.nextTaskId) (hpay : t.paymentStatus = .unpaid) :
    taskStoreInv { st with tasks := st.tasks ++ [t],
                            nextTaskId := st.nextTaskId + 1 } := by
  obtain ⟨⟨hnodup, hlt⟩, hinv⟩ := h
  refine ⟨⟨?_, ?_⟩, ?_⟩
  · show ((st.tasks ++ [t]).map Task.id).Nodup
    rw [List.map_append, List.nodup_append]
    refine ⟨hnodup, List.nodup_singleton _, ?_⟩
    intro x hx hx2
    rcases List.mem_map.mp hx with ⟨s, hs, rfl⟩
    simp only [List.map_cons, List.map_nil, List.mem_cons,
      List.not_mem_nil, or_false] at hx2
    have := hlt s hs
    rw [hx2, hid] at this
    exact absurd this (lt_irrefl _)
  · intro x hx
    rcases List.mem_append.mp hx with h1 | h1
    · exact Nat.lt_succ_of_lt (hlt x h1)
    · rcases List.mem_singleton.mp h1 with rfl
      rw [hid]
      exact Nat.lt_succ_self _
  · intro x hx
    rcases List.mem_append.mp hx with h1 | h1
    · exact hinv x h1
    · rcases List.mem_singleton.mp h1 with rfl
      intro hp
      rw [hpay] at hp
      cases hp

theorem inv_createTask (title description : String) (budget : ℚ)
    (caller : Id) (now : Time) (st : State) (h : taskStoreInv st) :
    taskStoreInv ((createTask title description budget caller now st).1) := by
  unfold createTask
  split
  · exact h
  · exact taskStoreInv_create st _ h rfl rfl

theorem inv_applyToTask (tid caller : Id) (now : Time) (st : State)
    (h : taskStoreInv st) :
    taskStoreInv ((applyToTask tid caller now st).1) := by
  unfold applyToTask
  repeat'
    first
    | exact h
    | exact taskStoreInv_updateTask _ _ _ (fun t => rfl)
        (fun t ht hid hp => hp) h
    | split

theorem inv_assignTask (tid applicantId caller : Id) (now : Time)
    (st : State) (h : taskStoreInv st) :
    taskStoreInv ((assignTask tid applicantId caller now st).1) := by
  unfold assignTask
  repeat'
    first
    | exact h
    | exact taskStoreInv_updateTask _ _ _ (fun t => rfl)
        (fun t ht hid hp => fun hpd => Or.inl rfl) h
    | split

theorem inv_completeTask (tid caller : Id) (now : Time) (st : State)
    (h : taskStoreInv st) :
    taskStoreInv ((completeTask tid caller now st).1) := by
  unfold completeTask
  repeat'
    first
    | exact h
    | exact taskStoreInv_updateTask _ _ _ (fun t => rfl)
        (fun t ht hid hp => fun hpd => Or.inr (Or.inl rfl)) h
    | split

theorem inv_payTask (tid caller : Id) (now : Time) (st : State)
    (h : taskStoreInv st) :
    taskStoreInv ((payTask tid caller now st).1) := by
  unfold payTask
  split
  · exact h
  rename_i task heq
  split
  · exact h
  split
  · exact h
  rename_i hown hstat
  have hst : task.status = .completed := not_not.mp hstat
  split
  · exact h
  have hupd : taskStoreInv (st.updateTask tid fun t =>
      { t with paymentStatus := .paid, paidAt := some now,
               updatedAt := now }) := by
    refine taskStoreInv_updateTask st tid _ (fun t => rfl) ?_ h
    intro t ht hid hp
    intro hpd
    right
    left
    show t.status = .completed
    rw [findTask_unique st tid task h.1.1 heq t ht hid]
    exact hst
  dsimp only
  split
  · exact hupd
  · exact hupd

theorem inv_simulateC2B (tid : Id) (phone : String) (amount : ℚ)
    (caller : Id) (gw : Option GwData) (now : Time) (st : State)
    (h : taskStoreInv st) :
    taskStoreInv ((simulateC2B tid phone amount caller gw now st).1) := by
  unfold simulateC2B
  repeat'
    first
    | exact h
    | split

theorem inv_b2cPayment (tid : Id) (phone : String) (caller : Id)
    (gw : Option GwData) (now : Time) (st : State) (h : taskStoreInv st) :
    taskStoreInv ((b2cPayment tid phone caller gw now st).1) := by
  unfold b2cPayment
  repeat'
    first
    | exact h
    | split

theorem inv_b2cResult (c o : String) (rc : ℤ) (rd : String)
    (receipt : Option String) (now : Time) (st : State)
    (h : taskStoreInv st) :
    taskStoreInv ((b2cResult c o rc rd receipt now st).1) := by
  unfold b2cResult
  repeat'
    first
    | exact h
    | exact taskStoreInv_updateTask _ _ _ (fun t => rfl)
        (fun t ht hid hp => fun hpd => Or.inr (Or.inr rfl)) h
    | split

theorem inv_b2cTimeout (c o : String) (rc : Option ℤ) (rd : Option String)
    (now : Time) (st : State) (h : taskStoreInv st) :
    taskStoreInv ((b2cTimeout c o rc rd now st).1) := by
  unfold b2cTimeout
  repeat'
    first
    | exact h
    | split

theorem taskStoreInv_stepEv (e : Event) (he : e.isConfirm = false)
    (st : State) (h : taskStoreInv st) : taskStoreInv (stepEv e st) := by
  cases e with
  | create title description budget caller now =>
      exact inv_createTask title description budget caller now st h
  | applyTo tid caller now => exact inv_applyToTask tid caller now st h
  | assign tid applicantId caller now =>
      exact inv_assignTask tid applicantId caller now st h
  | complete tid caller now => exact inv_completeTask tid caller now st h
  | pay tid caller now => exact inv_payTask tid caller now st h
  | simulate tid phone amount caller gw now =>
      exact inv_simulateC2B tid phone amount caller gw now st h
  | confirm billRefTask transID now => cases he
  | b2cPay tid phone caller gw now =>
      exact inv_b2cPayment tid phone caller gw now st h
  | b2cRes c o rc rd receipt now =>
      exact inv_b2cResult c o rc rd receipt now st h
  | b2cTime c o rc rd now => exact inv_b2cTimeout c o rc rd now st h

theorem taskStoreInv_reachedNC (st : State) (h : ReachedNC st) :
    taskStoreInv st := by
  induction h with
  | init =>
      refine ⟨⟨List.nodup_nil, ?_⟩, ?_⟩
      · intro t ht
        cases ht
      · intro t ht
        cases ht
  | step e st he _ ih => exact taskStoreInv_stepEv e he st ih

/-- C1 amended: for every task state reachable through create, apply, assign,
complete, pay, simulate-collection, payout initiation, and the payout-result
and payout-timeout callbacks — i.e. every operation except the
collection-confirmation callback — `paymentStatus = paid` implies
`status ∈ \x7bin-progress, completed, paid\x7d` (the task has at least left
`open`).  The claimed stronger invariant `status ∈ \x7bcompleted, paid\x7d`
fails: the collection-confirmation callback marks a task paid at any status,
and assign moves an already-paid task back to in-progress. -/
theorem c1_payment_invariant (st : State) (h : ReachedNC st) :
    amendedPaymentInvariant st :=
  (taskStoreInv_reachedNC st h).2

/-- Witness for C1 at a concrete reachable state carrying a paid task: the
post → apply → assign → complete → pay trace. -/
theorem c1_payment_invariant_witness : amendedPaymentInvariant c6Scenario :=
  c1_payment_invariant c6Scenario
    (ReachedNC.step (.pay 0 1 5) _ rfl
      (ReachedNC.step (.complete 0 2 4) _ rfl
        (ReachedNC.step (.assign 0 2 1 3) _ rfl
          (ReachedNC.step (.applyTo 0 2 2) _ rfl
            (ReachedNC.step (.create "Task" "desc" 500 1 1) _ rfl
              ReachedNC.init)))))

def c1ConfirmTrace : State :=
  stepEv (.confirm (some 0) "R" 3)
    (stepEv (.simulate 0 "0712345678" 500 1 (some ⟨"c1", "o1", "0", "ok"⟩) 2)
      (stepEv (.create "T" "d" 500 1 1) State.init))

/-- C1 counterexample: the invariant as claimed is violated on reachable
states.  (1) create → simulate-collection → collection-confirmation leaves
the task `open` with `paymentStatus = paid`.  (2) even without the
confirmation callback, assigning after the pay route moves a paid task back
to `in-progress`. -/
theorem c1_counterexample :
    (Reached c1ConfirmTrace ∧ ¬ specPaymentInvariant c1ConfirmTrace) ∧
    (ReachedNC (stepEv (.assign 0 3 1 6) c6Scenario) ∧
      ¬ specPaymentInvariant (stepEv (.assign 0 3 1 6) c6Scenario)) := by
  refine ⟨⟨?_, by decide⟩, ⟨?_, by decide⟩⟩
  · exact Reached.step (.confirm (some 0) "R" 3) _
      (Reached.step (.simulate 0 "0712345678" 500 1
          (some ⟨"c1", "o1", "0", "ok"⟩) 2) _
        (Reached.step (.create "T" "d" 500 1 1) _ Reached.init))
  · exact ReachedNC.step (.assign 0 3 1 6) _ rfl
      (ReachedNC.step (.pay 0 1 5) _ rfl
        (ReachedNC.step (.complete 0 2 4) _ rfl
          (ReachedNC.step (.assign 0 2 1 3) _ rfl
            (ReachedNC.step (.applyTo 0 2 2) _ rfl
              (ReachedNC.step (.create "Task" "desc" 500 1 1) _ rfl
                ReachedNC.init)))))

end CampusHub
